import Mathlib

/-!
Verification of the guaranteed-delivery outbound messaging subsystem:
a shallow embedding of the transactional outbox
(`backend/modules/crm_core/outbox.py`), the compliance components
(`backend/modules/compliance/optout.py`,
`backend/modules/compliance/timezone_engine.py`), the Twilio SMS
executor (`backend/modules/twilio_sms/executor.py`) and the inbound
opt-out workflow (`backend/api/twilio_webhooks.py`), together with
theorems settling the specification claims about them.

Strings processed by the classifier are modelled as `List Char`;
database rows are modelled as Lean structures and the store as a list
of rows; the wall clock and the timezone database are explicit inputs.
-/

/-! ### Generic text helpers (Python string primitives used by the code) -/

/-- The apostrophe character (used inside several fixed phrases). -/
def apos : Char := Char.ofNat 39

/-- Python `needle in hay` substring test on character lists. -/
def containsSub (hay pat : List Char) : Bool :=
  match hay with
  | [] => pat.isEmpty
  | _ :: t => pat.isPrefixOf hay || containsSub t pat

/-- Python `str.strip()`: drop whitespace at both ends. -/
def trimL (l : List Char) : List Char :=
  ((l.dropWhile Char.isWhitespace).reverse.dropWhile Char.isWhitespace).reverse

/-- Python `str.split()`: whitespace-separated words, empties dropped. -/
def wordsOf (l : List Char) : List (List Char) :=
  (l.splitOnP Char.isWhitespace).filter (fun w => !w.isEmpty)

/-- Python truthiness of an optional string (`None` and `""` are falsy). -/
def truthyStr : Option String → Bool
  | some s => !(s == "")
  | none => false

/-! ### Opt-out classifier (`modules/compliance/optout.py`) -/

/-- Embeds `OPT_OUT_KEYWORDS` from `optout.py`, in source order. -/
def OPT_OUT_KEYWORDS : List (List Char) :=
  ["stop".toList, "unsubscribe".toList, "cancel".toList, "quit".toList,
   "end".toList, "optout".toList, "opt-out".toList,
   "opt out".toList, "remove me".toList, "take me off".toList,
   "don".toList ++ [apos] ++ "t text".toList, "dont text".toList,
   "stop texting".toList, "leave me alone".toList, "wrong number".toList,
   "not interested".toList, "do not contact".toList, "never contact".toList,
   "stop messaging".toList, "stop contacting".toList, "unsubscribe me".toList,
   "remove from list".toList, "take off list".toList, "no more texts".toList,
   "no more messages".toList, "stop sending".toList, "please stop".toList,
   "pls stop".toList]

/-- Embeds `OPT_OUT_NEGATIONS` from `optout.py`, in source order. -/
def OPT_OUT_NEGATIONS : List (List Char) :=
  ["don".toList ++ [apos] ++ "t stop".toList, "dont stop".toList,
   "do not stop".toList, "not yet".toList, "keep texting".toList,
   "keep messaging".toList,
   "don".toList ++ [apos] ++ "t remove".toList, "dont remove".toList,
   "do not remove".toList,
   "don".toList ++ [apos] ++ "t unsubscribe".toList,
   "dont unsubscribe".toList]

/-- The list `exact_keywords` inside `is_optout`. -/
def EXACT_OPTOUT_WORDS : List (List Char) :=
  ["stop".toList, "unsubscribe".toList, "cancel".toList, "quit".toList,
   "end".toList, "optout".toList]

/-- The reinforcing phrases consulted by the bare-`stop` guard. -/
def STOP_REINFORCERS : List (List Char) :=
  ["stop text".toList, "stop messag".toList, "stop contact".toList,
   "stop send".toList, "pls stop".toList, "please stop".toList]

/-- Computes `message.lower().strip()` — the normalized `msg_lower`. -/
def normalizeMsg (message : List Char) : List Char :=
  trimL (message.map Char.toLower)

/-- The negation pass of `is_optout`: some fixed negation phrase occurs
in the normalized text. -/
def hasNegation (message : List Char) : Bool :=
  OPT_OUT_NEGATIONS.any (fun n => containsSub (normalizeMsg message) n)

/-- Embeds `is_optout` from `optout.py`: deterministic detection. -/
def is_optout (message : List Char) : Bool :=
  if message.isEmpty then false
  else
    let msgLower := normalizeMsg message
    let msgClean := msgLower.filter (fun c => c.isAlphanum || c.isWhitespace)
    if hasNegation message then false
    else
      let ws := wordsOf msgClean
      if (match ws with
          | [w] => EXACT_OPTOUT_WORDS.contains w
          | _ => false) then true
      else
        OPT_OUT_KEYWORDS.any (fun phrase =>
          containsSub msgLower phrase &&
          (if phrase = "stop".toList then
             (decide (msgClean.length < 20) ||
              "stop".toList.isPrefixOf msgLower ||
              STOP_REINFORCERS.any (fun w => containsSub msgLower w))
           else true))

/-- The text: do not(with apostrophe) stop texting — spelled via `apos`. -/
def exDontStopTexting : List Char :=
  "don".toList ++ [apos] ++ "t stop texting".toList

/-! ### Timezone engine (`modules/compliance/timezone_engine.py`) -/

/-- Embeds `AREA_CODE_TIMEZONES` from `timezone_engine.py`: area code to
timezone name, in source order (the keys are pairwise distinct). -/
def AREA_CODE_TIMEZONES : List (String × String) := [
  ("201", "America/New_York"),
  ("202", "America/New_York"),
  ("203", "America/New_York"),
  ("212", "America/New_York"),
  ("215", "America/New_York"),
  ("216", "America/New_York"),
  ("301", "America/New_York"),
  ("302", "America/New_York"),
  ("305", "America/New_York"),
  ("313", "America/New_York"),
  ("404", "America/New_York"),
  ("407", "America/New_York"),
  ("410", "America/New_York"),
  ("412", "America/New_York"),
  ("470", "America/New_York"),
  ("513", "America/New_York"),
  ("516", "America/New_York"),
  ("517", "America/New_York"),
  ("603", "America/New_York"),
  ("607", "America/New_York"),
  ("617", "America/New_York"),
  ("703", "America/New_York"),
  ("704", "America/New_York"),
  ("718", "America/New_York"),
  ("727", "America/New_York"),
  ("732", "America/New_York"),
  ("757", "America/New_York"),
  ("786", "America/New_York"),
  ("802", "America/New_York"),
  ("803", "America/New_York"),
  ("804", "America/New_York"),
  ("810", "America/New_York"),
  ("813", "America/New_York"),
  ("814", "America/New_York"),
  ("828", "America/New_York"),
  ("845", "America/New_York"),
  ("850", "America/New_York"),
  ("856", "America/New_York"),
  ("860", "America/New_York"),
  ("862", "America/New_York"),
  ("863", "America/New_York"),
  ("864", "America/New_York"),
  ("865", "America/New_York"),
  ("904", "America/New_York"),
  ("908", "America/New_York"),
  ("910", "America/New_York"),
  ("912", "America/New_York"),
  ("914", "America/New_York"),
  ("917", "America/New_York"),
  ("919", "America/New_York"),
  ("929", "America/New_York"),
  ("941", "America/New_York"),
  ("973", "America/New_York"),
  ("978", "America/New_York"),
  ("980", "America/New_York"),
  ("205", "America/Chicago"),
  ("214", "America/Chicago"),
  ("217", "America/Chicago"),
  ("251", "America/Chicago"),
  ("256", "America/Chicago"),
  ("281", "America/Chicago"),
  ("309", "America/Chicago"),
  ("312", "America/Chicago"),
  ("314", "America/Chicago"),
  ("316", "America/Chicago"),
  ("318", "America/Chicago"),
  ("319", "America/Chicago"),
  ("331", "America/Chicago"),
  ("334", "America/Chicago"),
  ("337", "America/Chicago"),
  ("361", "America/Chicago"),
  ("409", "America/Chicago"),
  ("414", "America/Chicago"),
  ("417", "America/Chicago"),
  ("430", "America/Chicago"),
  ("432", "America/Chicago"),
  ("469", "America/Chicago"),
  ("479", "America/Chicago"),
  ("501", "America/Chicago"),
  ("504", "America/Chicago"),
  ("507", "America/Chicago"),
  ("512", "America/Chicago"),
  ("515", "America/Chicago"),
  ("563", "America/Chicago"),
  ("573", "America/Chicago"),
  ("601", "America/Chicago"),
  ("608", "America/Chicago"),
  ("612", "America/Chicago"),
  ("618", "America/Chicago"),
  ("620", "America/Chicago"),
  ("630", "America/Chicago"),
  ("636", "America/Chicago"),
  ("641", "America/Chicago"),
  ("651", "America/Chicago"),
  ("660", "America/Chicago"),
  ("662", "America/Chicago"),
  ("682", "America/Chicago"),
  ("708", "America/Chicago"),
  ("712", "America/Chicago"),
  ("713", "America/Chicago"),
  ("715", "America/Chicago"),
  ("773", "America/Chicago"),
  ("785", "America/Chicago"),
  ("806", "America/Chicago"),
  ("815", "America/Chicago"),
  ("816", "America/Chicago"),
  ("817", "America/Chicago"),
  ("830", "America/Chicago"),
  ("832", "America/Chicago"),
  ("847", "America/Chicago"),
  ("870", "America/Chicago"),
  ("901", "America/Chicago"),
  ("903", "America/Chicago"),
  ("913", "America/Chicago"),
  ("918", "America/Chicago"),
  ("920", "America/Chicago"),
  ("936", "America/Chicago"),
  ("940", "America/Chicago"),
  ("956", "America/Chicago"),
  ("972", "America/Chicago"),
  ("979", "America/Chicago"),
  ("303", "America/Denver"),
  ("307", "America/Denver"),
  ("385", "America/Denver"),
  ("406", "America/Denver"),
  ("505", "America/Denver"),
  ("575", "America/Denver"),
  ("602", "America/Phoenix"),
  ("623", "America/Phoenix"),
  ("480", "America/Phoenix"),
  ("520", "America/Phoenix"),
  ("928", "America/Phoenix"),
  ("605", "America/Denver"),
  ("701", "America/Denver"),
  ("702", "America/Los_Angeles"),
  ("720", "America/Denver"),
  ("775", "America/Los_Angeles"),
  ("801", "America/Denver"),
  ("915", "America/Denver"),
  ("970", "America/Denver"),
  ("206", "America/Los_Angeles"),
  ("209", "America/Los_Angeles"),
  ("213", "America/Los_Angeles"),
  ("253", "America/Los_Angeles"),
  ("310", "America/Los_Angeles"),
  ("323", "America/Los_Angeles"),
  ("360", "America/Los_Angeles"),
  ("408", "America/Los_Angeles"),
  ("415", "America/Los_Angeles"),
  ("425", "America/Los_Angeles"),
  ("442", "America/Los_Angeles"),
  ("510", "America/Los_Angeles"),
  ("530", "America/Los_Angeles"),
  ("541", "America/Los_Angeles"),
  ("559", "America/Los_Angeles"),
  ("562", "America/Los_Angeles"),
  ("619", "America/Los_Angeles"),
  ("626", "America/Los_Angeles"),
  ("650", "America/Los_Angeles"),
  ("657", "America/Los_Angeles"),
  ("661", "America/Los_Angeles"),
  ("669", "America/Los_Angeles"),
  ("707", "America/Los_Angeles"),
  ("714", "America/Los_Angeles"),
  ("760", "America/Los_Angeles"),
  ("805", "America/Los_Angeles"),
  ("818", "America/Los_Angeles"),
  ("831", "America/Los_Angeles"),
  ("858", "America/Los_Angeles"),
  ("909", "America/Los_Angeles"),
  ("916", "America/Los_Angeles"),
  ("925", "America/Los_Angeles"),
  ("949", "America/Los_Angeles"),
  ("951", "America/Los_Angeles"),
  ("907", "America/Anchorage"),
  ("808", "Pacific/Honolulu")]

def DEFAULT_QUIET_START : Nat := 21

def DEFAULT_QUIET_END : Nat := 8

def DEFAULT_TIMEZONE : String := "America/Chicago"

/-- Embeds `get_timezone_from_area_code`: extract the digits, strip a leading
country-code `1` from an 11-digit number, and look up the first three
digits in the area-code table. -/
def get_timezone_from_area_code (phone : List Char) : Option String :=
  let digits := phone.filter Char.isDigit
  let digits :=
    if digits.head? = some (Char.ofNat 49) && digits.length = 11
    then digits.tail else digits
  if 10 ≤ digits.length then
    List.lookup (String.mk (digits.take 3)) AREA_CODE_TIMEZONES
  else none

/-- Embeds `get_contact_timezone`: the fallback chain
contact timezone → area code → location default → system default. -/
def get_contact_timezone (contact_tz : Option String)
    (phone : Option (List Char)) (location_tz : Option String) :
    String × String :=
  if truthyStr contact_tz then (contact_tz.getD "", "contact")
  else
    match (match phone with
           | some p => if p.isEmpty then none else get_timezone_from_area_code p
           | none => none) with
    | some tz => (tz, "area_code")
    | none =>
      if truthyStr location_tz then (location_tz.getD "", "location")
      else (DEFAULT_TIMEZONE, "default")

/-- The wall clock and the timezone database, as explicit inputs:
`knownTz` says whether `pytz` knows a timezone name, and `localHour`
gives the current local hour in a timezone. -/
structure Clock where
  knownTz : String → Bool
  localHour : String → Nat

/-- The quiet-window membership formula of `is_quiet_hours`, on the
already-computed local hour. -/
def quietWindow (h qs qe : Nat) : Bool :=
  if qs > qe then decide (qs ≤ h) || decide (h < qe)
  else decide (qs ≤ h) && decide (h < qe)

/-- Embeds `is_quiet_hours` from `timezone_engine.py`: resolve the timezone
(falling back to the default when unknown), take the current local
hour, and test the (possibly midnight-wrapping) quiet window. -/
def is_quiet_hours (clk : Clock) (timezone_str : String)
    (quiet_start quiet_end : Nat) : Bool :=
  let tz := if clk.knownTz timezone_str then timezone_str else DEFAULT_TIMEZONE
  quietWindow (clk.localHour tz) quiet_start quiet_end

/-- A clock whose local hour is `h` everywhere and that recognises
every timezone name. -/
def clockAtHour (h : Nat) : Clock :=
  { knownTz := fun _ => true, localHour := fun _ => h }

/-! ### Outbox store (`modules/crm_core/outbox.py`) -/

/-- Embeds `OutboxStatus` from `outbox.py`: the status values the store ever
persists. -/
inductive OutboxStatus where
  | pending
  | sending
  | sent
  | failed
  | dead_letter
  | cancelled
deriving DecidableEq, Repr

/-- The database string of each `OutboxStatus` member. -/
def statusDbName : OutboxStatus → String
  | .pending => "pending"
  | .sending => "sending"
  | .sent => "sent"
  | .failed => "failed"
  | .dead_letter => "dead_letter"
  | .cancelled => "cancelled"

/-- All members of `OutboxStatus`. -/
def allStatuses : List OutboxStatus :=
  [.pending, .sending, .sent, .failed, .dead_letter, .cancelled]

/-- An `outbox` table row. The payload is opaque to the store except
for the `contact_id` key that the query `payload->>contact_id` extracts, which
is carried explicitly; times are abstract instants (`Nat`). -/
structure OutboxItem where
  id : Nat
  object_type : String
  object_id : String
  destination : String
  payload_contact_id : Option String
  idempotency_key : Option String
  status : OutboxStatus
  attempt_count : Nat
  max_attempts : Nat
  next_attempt_at : Nat
  updated_at : Nat
  last_error : Option String
deriving DecidableEq, Repr

/-- Embeds `RETRY_BACKOFF` from `outbox.py` (seconds). -/
def RETRY_BACKOFF : List Nat := [60, 300, 900, 1800, 3600]

/-- A freshly inserted outbox row (`INSERT` defaults: pending, zero
attempts, five max attempts, ready now). -/
def newOutboxItem (freshId : Nat) (object_type object_id destination : String)
    (payload_contact_id idempotency_key : Option String) (now : Nat) :
    OutboxItem :=
  { id := freshId, object_type := object_type, object_id := object_id,
    destination := destination, payload_contact_id := payload_contact_id,
    idempotency_key := idempotency_key, status := .pending,
    attempt_count := 0, max_attempts := 5, next_attempt_at := now,
    updated_at := now, last_error := none }

/-- Embeds `enqueue_outbox`: `INSERT ... ON CONFLICT (idempotency_key) WHERE
idempotency_key IS NOT NULL DO UPDATE SET updated_at = NOW() RETURNING
id` — with a non-null key that conflicts with an existing row, the row
is touched and its id returned; otherwise a fresh row is inserted. -/
def enqueue_outbox (store : List OutboxItem)
    (object_type object_id destination : String)
    (payload_contact_id : Option String) (idempotency_key : Option String)
    (freshId now : Nat) : List OutboxItem × Nat :=
  let fresh := newOutboxItem freshId object_type object_id destination
      payload_contact_id idempotency_key now
  match idempotency_key with
  | some k =>
    match store.find? (fun i => decide (i.idempotency_key = some k)) with
    | some ex =>
      (store.map (fun i => if i.id = ex.id then { i with updated_at := now }
                           else i), ex.id)
    | none => (store ++ [fresh], freshId)
  | none => (store ++ [fresh], freshId)

/-- The `WHERE` predicate of `get_pending_outbox_items`. -/
def readyPred (now : Nat) (i : OutboxItem) : Bool :=
  (decide (i.status = .pending) || decide (i.status = .failed)) &&
  decide (i.next_attempt_at ≤ now) &&
  decide (i.attempt_count < i.max_attempts)

/-- Insertion into a list sorted by `next_attempt_at` ascending. -/
def insertByNext (x : OutboxItem) : List OutboxItem → List OutboxItem
  | [] => [x]
  | y :: t =>
    if x.next_attempt_at ≤ y.next_attempt_at then x :: y :: t
    else y :: insertByNext x t

/-- `ORDER BY next_attempt_at ASC` as an insertion sort. -/
def sortByNext : List OutboxItem → List OutboxItem
  | [] => []
  | x :: t => insertByNext x (sortByNext t)

/-- Embeds `get_pending_outbox_items` (the worker claim query): rows with
status pending or failed, due, within the attempt budget, ordered by
`next_attempt_at`, first `limit` rows. -/
def get_pending_outbox_items (store : List OutboxItem) (now lim : Nat) :
    List OutboxItem :=
  (sortByNext (store.filter (readyPred now))).take lim

/-- Embeds `mark_outbox_failed` applied to one row: backoff from
`RETRY_BACKOFF` indexed by `min(attempt_count, len - 1)`, dead letter
once `attempt_count >= 5`. -/
def mark_outbox_failed (i : OutboxItem) (error : String)
    (attempt_count now : Nat) : OutboxItem :=
  let backoff_index := min attempt_count (RETRY_BACKOFF.length - 1)
  let backoff_seconds := RETRY_BACKOFF.getD backoff_index 0
  let next_attempt := now + backoff_seconds
  let st : OutboxStatus := if 5 ≤ attempt_count then .dead_letter else .failed
  { i with status := st, last_error := some error,
           next_attempt_at := next_attempt, updated_at := now }

/-- Embeds `replay_outbox_item`: an update setting status pending,
attempt_count 0, next_attempt_at NOW() on every row with the given id
— no status guard; the boolean is whether any row matched. -/
def replay_outbox_item (store : List OutboxItem) (oid now : Nat) :
    List OutboxItem × Bool :=
  (store.map (fun i =>
     if i.id = oid then
       { i with status := .pending, attempt_count := 0,
                next_attempt_at := now, updated_at := now }
     else i),
   store.any (fun i => decide (i.id = oid)))

/-- The `WHERE` predicate of `cancel_pending_outbox_for_contact`:
status pending or failed, destination sms, payload contact match. -/
def cancelPred (contact_id : String) (i : OutboxItem) : Bool :=
  (decide (i.status = .pending) || decide (i.status = .failed)) &&
  decide (i.destination = "sms") &&
  decide (i.payload_contact_id = some contact_id)

/-- Embeds `cancel_pending_outbox_for_contact`: a bulk update to the
cancelled status under `cancelPred`, returning the number of rows hit. -/
def cancel_pending_outbox_for_contact (store : List OutboxItem)
    (contact_id : String) : List OutboxItem × Nat :=
  (store.map (fun i => if cancelPred contact_id i
                       then { i with status := .cancelled } else i),
   (store.filter (cancelPred contact_id)).length)

/-! ### Twilio SMS executor (`modules/twilio_sms/executor.py`) -/

/-- The contact compliance state read by the executor
(`modules/crm_core/models.py` `Contact`). -/
structure Contact where
  id : String
  dnd : Bool
  dnd_settings : List (String × Bool)
  tags : List String
  timezone : Option String
  phone : Option (List Char)
deriving DecidableEq, Repr

/-- The channel-specific check `contact.dnd_settings` truthy and
`contact.dnd_settings.get("sms", False)`. -/
def dndSettingsSms (c : Contact) : Bool :=
  if c.dnd_settings.isEmpty then false
  else ((List.lookup "sms" c.dnd_settings).getD false)

/-- Embeds `SendSMSRequest` (`modules/twilio_sms/models.py`); `toNum` models
the `to` field (destination phone number). -/
structure SendSMSRequest where
  toNum : List Char
  body : List Char
  location_id : Option String
  contact_id : Option String
deriving DecidableEq, Repr

/-- Embeds `SendSMSResponse` (`modules/twilio_sms/models.py`); `deferred`
records whether `deferred_until` was populated. -/
structure SendSMSResponse where
  success : Bool
  message_sid : Option String := none
  error : Option String := none
  blocked_reason : Option String := none
  deferred : Bool := false
deriving DecidableEq, Repr

/-- The executor environment: Twilio client configuration, the two
contact lookups, the clock, and the provider reply. -/
structure SmsEnv where
  clientConfigured : Bool
  contactById : Option Contact
  contactByPhone : Option Contact
  clock : Clock
  providerOk : Bool
  providerSid : String
  providerErr : String

/-- The outcome of one `send_sms` call, instrumented with whether the
DND gate body ran (a contact was found), which timezone the
quiet-hours check used, and whether the Twilio API was invoked. -/
structure SmsResult where
  resp : SendSMSResponse
  dndChecked : Bool
  tzUsed : Option String
  twilioCalled : Bool
deriving DecidableEq, Repr

/-- The contact lookup at the top of `send_sms`: by `contact_id` when
truthy, else by phone when `to` and `location_id` are truthy. -/
def lookupContact (env : SmsEnv) (req : SendSMSRequest) : Option Contact :=
  let byId := if truthyStr req.contact_id then env.contactById else none
  match byId with
  | some c => some c
  | none =>
    if !req.toNum.isEmpty && truthyStr req.location_id then env.contactByPhone
    else none

/-- The tail of `send_sms` after the DND gate: quiet-hours check, then
the Twilio call. -/
def sendAfterGate (env : SmsEnv) (req : SendSMSRequest)
    (contact : Option Contact) (dndChecked : Bool) : SmsResult :=
  let tz := (get_contact_timezone
      (match contact with | some c => c.timezone | none => none)
      (match contact with | some c => c.phone | none => some req.toNum)
      none).1
  if is_quiet_hours env.clock tz DEFAULT_QUIET_START DEFAULT_QUIET_END then
    { resp := { success := false,
                error := some "Quiet hours active",
                blocked_reason := some "quiet_hours", deferred := true },
      dndChecked := dndChecked, tzUsed := some tz, twilioCalled := false }
  else if env.providerOk then
    { resp := { success := true, message_sid := some env.providerSid },
      dndChecked := dndChecked, tzUsed := some tz, twilioCalled := true }
  else
    { resp := { success := false, error := some env.providerErr },
      dndChecked := dndChecked, tzUsed := some tz, twilioCalled := true }

/-- Embeds `TwilioSMSExecutor.send_sms`: client check, contact lookup, DND
gate (global flag, then channel-specific flag), quiet hours, provider
call — in that order, each early-returning. -/
def send_sms (env : SmsEnv) (req : SendSMSRequest) : SmsResult :=
  if !env.clientConfigured then
    { resp := { success := false,
                error := some "Twilio client not configured" },
      dndChecked := false, tzUsed := none, twilioCalled := false }
  else
    match lookupContact env req with
    | some c =>
      if c.dnd then
        { resp := { success := false,
                    error := some "Contact is on Do Not Disturb list",
                    blocked_reason := some "dnd" },
          dndChecked := true, tzUsed := none, twilioCalled := false }
      else if dndSettingsSms c then
        { resp := { success := false,
                    error := some "Contact has SMS Do Not Disturb",
                    blocked_reason := some "dnd_sms" },
          dndChecked := true, tzUsed := none, twilioCalled := false }
      else sendAfterGate env req (some c) true
    | none => sendAfterGate env req none false

/-! ### Inbound opt-out workflow (`api/twilio_webhooks.py`) -/

/-- Embeds `is_first_optout` inside `handle_inbound_sms`:
`not contact.dnd and (not contact.tags or "opted_out" not in
contact.tags)`. -/
def is_first_optout (c : Contact) : Bool :=
  !c.dnd && (c.tags.isEmpty || !(c.tags.contains "opted_out"))

/-- The pieces of the webhook environment that do not change between
two deliveries of the same message. -/
structure World where
  clientConfigured : Bool
  clock : Clock
  providerOk : Bool
  providerSid : String
  providerErr : String

/-- The `SmsEnv` seen by the confirmation `send_sms` call: the DB still
holds the pre-update contact, so both lookups return it. -/
def envForContact (w : World) (c : Contact) : SmsEnv :=
  { clientConfigured := w.clientConfigured, contactById := some c,
    contactByPhone := some c, clock := w.clock,
    providerOk := w.providerOk, providerSid := w.providerSid,
    providerErr := w.providerErr }

/-- The opt-out confirmation request built by the webhook handler. -/
def confirmRequest (c : Contact) (fromNumber : List Char)
    (locId : Option String) : SendSMSRequest :=
  { toNum := fromNumber,
    body := "You have been unsubscribed. Reply START to resubscribe.".toList,
    location_id := locId, contact_id := some c.id }

/-- The outcome of the opt-out branch of `handle_inbound_sms`. -/
structure OptoutResult where
  contact : Contact
  confirmationAttempted : Bool
  confirmationTwilioCalled : Bool
  confirmationResp : Option SendSMSResponse
  store : List OutboxItem
deriving Repr

/-- The opt-out branch of `handle_inbound_sms`: compute
`is_first_optout`; if first, send the confirmation through
`send_sms`; then set `dnd = true`, add the `opted_out` tag (the tag
insert is `ON CONFLICT DO NOTHING`), and cancel pending outbox items
for the contact. -/
def process_optout (w : World) (c : Contact) (store : List OutboxItem)
    (fromNumber : List Char) (locId : Option String) : OptoutResult :=
  let first := is_first_optout c
  let res : Option SmsResult :=
    if first then some (send_sms (envForContact w c)
                                 (confirmRequest c fromNumber locId))
    else none
  let c2 : Contact := { c with dnd := true }
  let c3 : Contact :=
    { c2 with tags := if c2.tags.contains "opted_out" then c2.tags
                      else c2.tags ++ ["opted_out"] }
  { contact := c3,
    confirmationAttempted := first,
    confirmationTwilioCalled :=
      (match res with | some r => r.twilioCalled | none => false),
    confirmationResp :=
      (match res with | some r => some r.resp | none => none),
    store := (cancel_pending_outbox_for_contact store c.id).1 }

/-! ### Concrete fixtures used by witnesses and counterexamples -/

def exItem : OutboxItem :=
  newOutboxItem 1 "client_notification" "obj-1" "sms" (some "c1") none 0

def exItemSent : OutboxItem := { exItem with status := .sent }

def exItemEmail : OutboxItem := { exItem with id := 2, destination := "email" }

def exItemSending : OutboxItem := { exItem with id := 3, status := .sending }

def exContact : Contact :=
  { id := "c1", dnd := false, dnd_settings := [], tags := [],
    timezone := some "America/Chicago", phone := none }

def exContactDnd : Contact := { exContact with dnd := true }

def exContactSmsDnd : Contact :=
  { exContact with dnd_settings := [("sms", true)] }

def exWorld (h : Nat) : World :=
  { clientConfigured := true, clock := clockAtHour h, providerOk := true,
    providerSid := "SM1", providerErr := "err" }

def exEnv (h : Nat) (c : Option Contact) : SmsEnv :=
  { clientConfigured := true, contactById := c, contactByPhone := none,
    clock := clockAtHour h, providerOk := true, providerSid := "SM1",
    providerErr := "err" }

def exReq : SendSMSRequest :=
  { toNum := "+12125551234".toList, body := "hello".toList,
    location_id := some "loc-1", contact_id := some "c1" }

def exReqNoContact : SendSMSRequest := { exReq with contact_id := none }

/-! ### Shared lemmas about the store embedding -/

theorem mem_insertByNext {a x : OutboxItem} {l : List OutboxItem} :
    a ∈ insertByNext x l ↔ a = x ∨ a ∈ l := by
  induction l with
  | nil => simp [insertByNext]
  | cons y t ih =>
    by_cases hc : x.next_attempt_at ≤ y.next_attempt_at
    · simp [insertByNext, hc]
    · simp [insertByNext, hc, ih]
      tauto

theorem mem_sortByNext {a : OutboxItem} {l : List OutboxItem} :
    a ∈ sortByNext l ↔ a ∈ l := by
  induction l with
  | nil => simp [sortByNext]
  | cons y t ih => simp [sortByNext, mem_insertByNext, ih]

/-! ### Claim theorems -/

/-- C2 (amended): `mark_outbox_failed` indexes `RETRY_BACKOFF` by the
attempt number itself, capped at the last entry, so attempts 1..5 get
deltas [300, 900, 1800, 3600, 3600] seconds (not [60, 300, 900, 1800,
3600]); the status is dead_letter exactly when the attempt number is
at least 5, else failed. -/
theorem mark_failed_backoff (i : OutboxItem) (e : String) (now n : Nat)
    (h1 : 1 ≤ n) (h2 : n ≤ 5) :
    (mark_outbox_failed i e n now).next_attempt_at =
      now + List.getD [300, 900, 1800, 3600, 3600] (n - 1) 0 ∧
    (mark_outbox_failed i e n now).status =
      (if 5 ≤ n then OutboxStatus.dead_letter else OutboxStatus.failed) := by
  interval_cases n <;> exact ⟨rfl, rfl⟩

theorem mark_failed_backoff_witness :
    (mark_outbox_failed exItem "boom" 2 1000).next_attempt_at =
      1000 + List.getD [300, 900, 1800, 3600, 3600] (2 - 1) 0 ∧
    (mark_outbox_failed exItem "boom" 2 1000).status =
      (if 5 ≤ 2 then OutboxStatus.dead_letter else OutboxStatus.failed) :=
  mark_failed_backoff exItem "boom" 1000 2 (by decide) (by decide)

/-- C2 counterexample: at attempt 1 the scheduled delta is 300 seconds,
not the 60 seconds the claim states. -/
theorem mark_failed_attempt1_not_60s :
    (mark_outbox_failed exItem "boom" 1 0).next_attempt_at = 300 ∧
    (mark_outbox_failed exItem "boom" 1 0).next_attempt_at ≠ 0 + 60 := by
  exact ⟨rfl, by decide⟩

/-- C3 (amended): `replay_outbox_item` carries no status guard: any
existing item — whatever its status, terminal-failure or not — is
reset to pending with attempt_count 0 and next_attempt_at = now, and
the call reports success; it reports failure only when no row has the
given id, in which case the store is unchanged. -/
theorem replay_resets_any_item (store : List OutboxItem) (oid now : Nat) :
    ((∃ i ∈ store, i.id = oid) →
       (replay_outbox_item store oid now).2 = true ∧
       ∀ j ∈ (replay_outbox_item store oid now).1, j.id = oid →
         j.status = OutboxStatus.pending ∧ j.attempt_count = 0 ∧
         j.next_attempt_at = now) ∧
    ((∀ i ∈ store, i.id ≠ oid) →
       (replay_outbox_item store oid now).2 = false ∧
       (replay_outbox_item store oid now).1 = store) := by
  constructor
  · rintro ⟨i, hi, hid⟩
    refine ⟨?_, ?_⟩
    · have h : store.any (fun x => decide (x.id = oid)) = true :=
        List.any_eq_true.mpr ⟨i, hi, by simp [hid]⟩
      simpa [replay_outbox_item] using h
    · intro j hj hjid
      rw [replay_outbox_item] at hj
      simp only [List.mem_map] at hj
      obtain ⟨a, _, hfa⟩ := hj
      by_cases hc : a.id = oid
      · rw [if_pos hc] at hfa
        rw [← hfa]
        exact ⟨rfl, rfl, rfl⟩
      · rw [if_neg hc] at hfa
        rw [← hfa] at hjid
        exact absurd hjid hc
  · intro h
    refine ⟨?_, ?_⟩
    · have h2 : store.any (fun i => decide (i.id = oid)) = false :=
        List.any_eq_false.mpr (fun i hi => by simp [h i hi])
      simpa [replay_outbox_item] using h2
    · have h2 : store.map (fun i =>
          if i.id = oid then
            { i with status := OutboxStatus.pending, attempt_count := 0,
                     next_attempt_at := now, updated_at := now }
          else i) = store.map id :=
        List.map_congr_left (fun a ha => by simp [h a ha])
      simpa [replay_outbox_item] using h2

theorem replay_resets_any_item_witness :
    (replay_outbox_item [exItemSent] 1 5).2 = true ∧
    ∀ j ∈ (replay_outbox_item [exItemSent] 1 5).1, j.id = 1 →
      j.status = OutboxStatus.pending ∧ j.attempt_count = 0 ∧
      j.next_attempt_at = 5 :=
  (replay_resets_any_item [exItemSent] 1 5).1 ⟨exItemSent, by decide, rfl⟩

/-- C3 counterexample: replaying an item whose status is `sent` — not
a terminal-failure state — is not an error and does not leave the item
unchanged: it succeeds and resets the item to pending. -/
theorem replay_sent_item_not_error :
    exItemSent.status = OutboxStatus.sent ∧
    (replay_outbox_item [exItemSent] 1 5).2 = true ∧
    (replay_outbox_item [exItemSent] 1 5).1.map OutboxItem.status =
      [OutboxStatus.pending] := by
  decide

/-- C4 (amended): `cancel_pending_outbox_for_contact` transitions to
cancelled exactly the items in {pending, failed} whose payload
contact_id matches AND whose destination is sms — not every
destination channel — returning the number of such items; items in any
other status (in particular `sending`) and items for other
destinations are left unchanged. -/
theorem cancel_scope (store : List OutboxItem) (cid : String) :
    (cancel_pending_outbox_for_contact store cid).2 =
      (store.filter (cancelPred cid)).length ∧
    (∀ i ∈ store, cancelPred cid i = true →
       { i with status := OutboxStatus.cancelled } ∈
         (cancel_pending_outbox_for_contact store cid).1) ∧
    (∀ i ∈ store, cancelPred cid i = false →
       i ∈ (cancel_pending_outbox_for_contact store cid).1) ∧
    (∀ i ∈ store, i.status = OutboxStatus.sending →
       i ∈ (cancel_pending_outbox_for_contact store cid).1) ∧
    (∀ i ∈ store, i.destination ≠ "sms" →
       i ∈ (cancel_pending_outbox_for_contact store cid).1) := by
  have hmem : ∀ i ∈ store, cancelPred cid i = false →
      i ∈ (cancel_pending_outbox_for_contact store cid).1 := by
    intro i hi hp
    rw [cancel_pending_outbox_for_contact]
    exact List.mem_map.mpr ⟨i, hi, by simp [hp]⟩
  refine ⟨rfl, ?_, hmem, ?_, ?_⟩
  · intro i hi hp
    rw [cancel_pending_outbox_for_contact]
    exact List.mem_map.mpr ⟨i, hi, by simp [hp]⟩
  · intro i hi hs
    exact hmem i hi (by simp [cancelPred, hs])
  · intro i hi hd
    exact hmem i hi (by simp [cancelPred, hd])

theorem cancel_scope_witness :
    exItemSending ∈
      (cancel_pending_outbox_for_contact [exItem, exItemSending] "c1").1 :=
  (cancel_scope [exItem, exItemSending] "c1").2.2.2.1 exItemSending
    (by decide) rfl

/-- C4 counterexample: a pending item for the same contact with
destination `email` is not cancelled — the update filters on
destination sms — so the claim saying for every destination channel
fails: the call reports 0 items affected and the item stays pending. -/
theorem cancel_nonsms_unchanged :
    exItemEmail.status = OutboxStatus.pending ∧
    exItemEmail.payload_contact_id = some "c1" ∧
    (cancel_pending_outbox_for_contact [exItemEmail] "c1").1 = [exItemEmail] ∧
    (cancel_pending_outbox_for_contact [exItemEmail] "c1").2 = 0 := by
  decide

/-- C6 (amended): the persisted status enum is the closed set
{pending, sending, sent, failed, dead_letter, cancelled} — there is no
`blocked` member and no `mark_blocked` operation in the store — and
the worker claim query only ever selects items whose status is
pending or failed. -/
theorem outbox_status_closed_enum :
    (∀ s : OutboxStatus, s ∈ allStatuses) ∧
    (∀ s : OutboxStatus, statusDbName s ∈
       ["pending", "sending", "sent", "failed", "dead_letter",
        "cancelled"]) ∧
    (∀ (store : List OutboxItem) (now lim : Nat) (i : OutboxItem),
       i ∈ get_pending_outbox_items store now lim →
       i.status = OutboxStatus.pending ∨ i.status = OutboxStatus.failed) := by
  refine ⟨fun s => ?_, fun s => ?_, fun store now lim i hi => ?_⟩
  · cases s <;> simp [allStatuses]
  · cases s <;> simp [statusDbName]
  · rw [get_pending_outbox_items] at hi
    have h1 := mem_sortByNext.mp (List.mem_of_mem_take hi)
    have h2 := (List.mem_filter.mp h1).2
    simp only [readyPred, Bool.and_eq_true, Bool.or_eq_true,
      decide_eq_true_eq] at h2
    exact h2.1.1

theorem outbox_status_closed_enum_witness :
    exItem.status = OutboxStatus.pending ∨
    exItem.status = OutboxStatus.failed :=
  outbox_status_closed_enum.2.2 [exItem] 0 5 exItem (by decide)

/-- C6 counterexample: no member of the persisted status enum is named
`blocked`; the `blocked` status and `mark_blocked` operation the claim
describes do not exist in the store. -/
theorem outbox_no_blocked_status :
    ¬ ∃ s : OutboxStatus, statusDbName s = "blocked" := by
  rintro ⟨s, h⟩
  cases s <;> simp [statusDbName] at h

/-- C7 (confirmed): enqueuing twice with the same non-null
idempotency_key yields one logical item: when no row already carries
the key, the first call inserts exactly one row with it, and the
second call — hitting the `ON CONFLICT ... DO UPDATE` arm — returns
the same id, adds no row, and leaves exactly one row with the key. -/
theorem enqueue_idempotent (store : List OutboxItem)
    (ot oid dest : String) (pcid : Option String) (k : String)
    (f1 f2 now1 now2 : Nat)
    (h : ∀ i ∈ store, i.idempotency_key ≠ some k) :
    ((enqueue_outbox
        ((enqueue_outbox store ot oid dest pcid (some k) f1 now1).1)
        ot oid dest pcid (some k) f2 now2).2 =
      (enqueue_outbox store ot oid dest pcid (some k) f1 now1).2) ∧
    ((enqueue_outbox
        ((enqueue_outbox store ot oid dest pcid (some k) f1 now1).1)
        ot oid dest pcid (some k) f2 now2).1.length =
      (enqueue_outbox store ot oid dest pcid (some k) f1 now1).1.length) ∧
    (((enqueue_outbox store ot oid dest pcid (some k) f1 now1).1.filter
        (fun i => decide (i.idempotency_key = some k))).length = 1) ∧
    (((enqueue_outbox
        ((enqueue_outbox store ot oid dest pcid (some k) f1 now1).1)
        ot oid dest pcid (some k) f2 now2).1.filter
        (fun i => decide (i.idempotency_key = some k))).length = 1) := by
  have hfind1 : store.find?
      (fun i => decide (i.idempotency_key = some k)) = none :=
    List.find?_eq_none.mpr (fun x hx => by simp [h x hx])
  have e1 : enqueue_outbox store ot oid dest pcid (some k) f1 now1 =
      (store ++ [newOutboxItem f1 ot oid dest pcid (some k) now1], f1) := by
    rw [enqueue_outbox]
    simp [hfind1]
  have hpf : (fun i : OutboxItem => decide (i.idempotency_key = some k))
      (newOutboxItem f1 ot oid dest pcid (some k) now1) = true := by
    simp [newOutboxItem]
  have hfind2 : (store ++ [newOutboxItem f1 ot oid dest pcid (some k) now1]).find?
      (fun i => decide (i.idempotency_key = some k)) =
      some (newOutboxItem f1 ot oid dest pcid (some k) now1) := by
    rw [List.find?_append, hfind1]
    simp [List.find?_cons, newOutboxItem]
  have e2 : enqueue_outbox
      (store ++ [newOutboxItem f1 ot oid dest pcid (some k) now1])
      ot oid dest pcid (some k) f2 now2 =
      ((store ++ [newOutboxItem f1 ot oid dest pcid (some k) now1]).map
         (fun i => if i.id = f1 then { i with updated_at := now2 } else i),
       f1) := by
    rw [enqueue_outbox, hfind2]
    rfl
  have hfilter1 : ((store ++
      [newOutboxItem f1 ot oid dest pcid (some k) now1]).filter
      (fun i => decide (i.idempotency_key = some k))).length = 1 := by
    rw [List.filter_append]
    have hnil : store.filter
        (fun i => decide (i.idempotency_key = some k)) = [] :=
      List.filter_eq_nil_iff.mpr (fun a ha => by simp [h a ha])
    rw [hnil]
    simp [newOutboxItem]
  refine ⟨?_, ?_, ?_, ?_⟩
  · rw [e1]
    simp only
    rw [e2]
  · rw [e1]
    simp only
    rw [e2]
    simp
  · rw [e1]
    exact hfilter1
  · rw [e1]
    simp only
    rw [e2]
    simp only
    rw [List.filter_map]
    rw [List.length_map]
    have hcong : List.filter
        ((fun i : OutboxItem => decide (i.idempotency_key = some k)) ∘
         (fun i => if i.id = f1 then { i with updated_at := now2 } else i))
        (store ++ [newOutboxItem f1 ot oid dest pcid (some k) now1]) =
        List.filter (fun i => decide (i.idempotency_key = some k))
        (store ++ [newOutboxItem f1 ot oid dest pcid (some k) now1]) := by
      apply List.filter_congr
      intro a _
      by_cases hc : a.id = f1
      · simp [Function.comp, hc]
      · simp [Function.comp, hc]
    rw [hcong]
    exact hfilter1

theorem enqueue_idempotent_witness :
    ((enqueue_outbox
        ((enqueue_outbox [] "client_notification" "obj-1" "sms" (some "c1")
            (some "key-1") 10 0).1)
        "client_notification" "obj-1" "sms" (some "c1")
        (some "key-1") 11 9).2 =
      (enqueue_outbox [] "client_notification" "obj-1" "sms" (some "c1")
        (some "key-1") 10 0).2) ∧
    ((enqueue_outbox
        ((enqueue_outbox [] "client_notification" "obj-1" "sms" (some "c1")
            (some "key-1") 10 0).1)
        "client_notification" "obj-1" "sms" (some "c1")
        (some "key-1") 11 9).1.length =
      (enqueue_outbox [] "client_notification" "obj-1" "sms" (some "c1")
        (some "key-1") 10 0).1.length) ∧
    (((enqueue_outbox [] "client_notification" "obj-1" "sms" (some "c1")
        (some "key-1") 10 0).1.filter
        (fun i => decide (i.idempotency_key = some "key-1"))).length = 1) ∧
    (((enqueue_outbox
        ((enqueue_outbox [] "client_notification" "obj-1" "sms" (some "c1")
            (some "key-1") 10 0).1)
        "client_notification" "obj-1" "sms" (some "c1")
        (some "key-1") 11 9).1.filter
        (fun i => decide (i.idempotency_key = some "key-1"))).length = 1) :=
  enqueue_idempotent [] "client_notification" "obj-1" "sms" (some "c1")
    "key-1" 10 11 0 9 (by simp)

/-- C1 (amended): when a contact is found, the DND gate in `send_sms`
runs before the quiet-hours check and before any Twilio call: a
contact with the global `dnd` flag is blocked with reason `"dnd"`, and
a contact with only the channel-specific `dnd_settings["sms"]` flag is
blocked with reason `"dnd_sms"` (not `"dnd"` as the claim states); in
both cases the result is never a success and the Channel Sender is
not invoked, regardless of quiet-hours state. -/
theorem dnd_gate_blocks (env : SmsEnv) (req : SendSMSRequest) (c : Contact)
    (hlu : lookupContact env req = some c)
    (hcfg : env.clientConfigured = true)
    (hdnd : c.dnd = true ∨ dndSettingsSms c = true) :
    (send_sms env req).resp.success = false ∧
    (send_sms env req).resp.blocked_reason =
      some (if c.dnd then "dnd" else "dnd_sms") ∧
    (send_sms env req).twilioCalled = false := by
  have hnc : (!env.clientConfigured) = false := by rw [hcfg]; rfl
  by_cases hd : c.dnd = true
  · simp [send_sms, hnc, hlu, hd]
  · have hd0 : c.dnd = false := by
      revert hd
      cases c.dnd <;> simp
    have hs : dndSettingsSms c = true := by
      rcases hdnd with h1 | h1
      · rw [hd0] at h1
        exact absurd h1 (by simp)
      · exact h1
    simp [send_sms, hnc, hlu, hd0, hs]

theorem dnd_gate_blocks_witness :
    (send_sms (exEnv 12 (some exContactDnd)) exReq).resp.success = false ∧
    (send_sms (exEnv 12 (some exContactDnd)) exReq).resp.blocked_reason =
      some (if exContactDnd.dnd then "dnd" else "dnd_sms") ∧
    (send_sms (exEnv 12 (some exContactDnd)) exReq).twilioCalled = false :=
  dnd_gate_blocks (exEnv 12 (some exContactDnd)) exReq exContactDnd
    rfl rfl (Or.inl rfl)

/-- C1 counterexample: a contact with `dnd = false` but
`dnd_settings["sms"] = true` is blocked with reason `"dnd_sms"`, not
the `"dnd"` the claim states. -/
theorem dnd_sms_reason_not_dnd :
    exContactSmsDnd.dnd = false ∧
    dndSettingsSms exContactSmsDnd = true ∧
    (send_sms (exEnv 12 (some exContactSmsDnd)) exReq).resp.blocked_reason =
      some "dnd_sms" ∧
    (send_sms (exEnv 12 (some exContactSmsDnd)) exReq).resp.blocked_reason ≠
      some "dnd" := by
  decide

/-- C10 (confirmed): when both contact lookups come back empty, the
DND gate body never runs — an unknown recipient cannot be DND-blocked
— and the send proceeds to the quiet-hours check with the timezone
resolved from the destination phone number (no contact timezone, no
location timezone), then to the provider call. -/
theorem unknown_contact_skips_dnd (env : SmsEnv) (req : SendSMSRequest)
    (hcfg : env.clientConfigured = true)
    (hlu : lookupContact env req = none) :
    (send_sms env req).dndChecked = false ∧
    (send_sms env req).tzUsed =
      some (get_contact_timezone none (some req.toNum) none).1 ∧
    (send_sms env req).resp.blocked_reason ≠ some "dnd" ∧
    (send_sms env req).resp.blocked_reason ≠ some "dnd_sms" ∧
    ((send_sms env req).resp.blocked_reason = some "quiet_hours" ∨
     (send_sms env req).twilioCalled = true) := by
  have hnc : (!env.clientConfigured) = false := by rw [hcfg]; rfl
  have hred : send_sms env req = sendAfterGate env req none false := by
    simp [send_sms, hnc, hlu]
  rw [hred]
  rw [sendAfterGate]
  cases hq : is_quiet_hours env.clock
      (get_contact_timezone none (some req.toNum) none).1
      DEFAULT_QUIET_START DEFAULT_QUIET_END
  · cases hp : env.providerOk <;> simp [hq, hp]
  · simp [hq]

theorem unknown_contact_skips_dnd_witness :
    (send_sms (exEnv 12 none) exReqNoContact).dndChecked = false ∧
    (send_sms (exEnv 12 none) exReqNoContact).tzUsed =
      some (get_contact_timezone none (some exReqNoContact.toNum) none).1 ∧
    (send_sms (exEnv 12 none) exReqNoContact).resp.blocked_reason ≠
      some "dnd" ∧
    (send_sms (exEnv 12 none) exReqNoContact).resp.blocked_reason ≠
      some "dnd_sms" ∧
    ((send_sms (exEnv 12 none) exReqNoContact).resp.blocked_reason =
       some "quiet_hours" ∨
     (send_sms (exEnv 12 none) exReqNoContact).twilioCalled = true) :=
  unknown_contact_skips_dnd (exEnv 12 none) exReqNoContact rfl rfl

/-- C5 (amended): the opt-out confirmation is sent through `send_sms`,
not past it — it passes the DND check only because `dnd` is not yet
set, and it remains subject to the channel-specific DND check and the
quiet-hours check. On a first opt-out, when the channel-specific flag
is unset and the local time is outside quiet hours, exactly one
confirmation reaches the Channel Sender; the same opt-out processed a
second time sends nothing, because `is_first_optout` is false after
`dnd` and the `opted_out` tag have been set. -/
theorem optout_confirmation_once (w w2 : World) (c : Contact)
    (store store2 : List OutboxItem) (fromN fromN2 : List Char)
    (locId locId2 : Option String)
    (hcfg : w.clientConfigured = true)
    (hid : (c.id == "") = false)
    (hdnd : c.dnd = false)
    (htag : c.tags.contains "opted_out" = false)
    (hset : dndSettingsSms c = false)
    (hq : is_quiet_hours w.clock
        (get_contact_timezone c.timezone c.phone none).1
        DEFAULT_QUIET_START DEFAULT_QUIET_END = false) :
    (process_optout w c store fromN locId).confirmationAttempted = true ∧
    (process_optout w c store fromN locId).confirmationTwilioCalled = true ∧
    (process_optout w c store fromN locId).contact.dnd = true ∧
    (process_optout w c store fromN locId).contact.tags.contains
      "opted_out" = true ∧
    (process_optout w2 (process_optout w c store fromN locId).contact
       store2 fromN2 locId2).confirmationAttempted = false ∧
    (process_optout w2 (process_optout w c store fromN locId).contact
       store2 fromN2 locId2).confirmationTwilioCalled = false := by
  have hnm : "opted_out" ∉ c.tags := by
    simpa [List.contains, List.elem_eq_mem] using htag
  have hfo : is_first_optout c = true := by
    simp [is_first_optout, hdnd]
    exact Or.inr hnm
  have hnc : (!w.clientConfigured) = false := by rw [hcfg]; rfl
  have hnc2 : (!(envForContact w c).clientConfigured) = false := hnc
  have hlu : lookupContact (envForContact w c)
      (confirmRequest c fromN locId) = some c := by
    simp [lookupContact, envForContact, confirmRequest, truthyStr, hid]
  have hsend : send_sms (envForContact w c) (confirmRequest c fromN locId) =
      sendAfterGate (envForContact w c) (confirmRequest c fromN locId)
        (some c) true := by
    simp [send_sms, hnc2, hlu, hdnd, hset]
  have hcall : (send_sms (envForContact w c)
      (confirmRequest c fromN locId)).twilioCalled = true := by
    rw [hsend]
    cases hp : w.providerOk <;>
      simp [sendAfterGate, envForContact, confirmRequest, hq, hp]
  have hc3 : (process_optout w c store fromN locId).contact =
      { c with dnd := true, tags := c.tags ++ ["opted_out"] } := by
    simp [process_optout, htag, hnm]
  refine ⟨?_, ?_, ?_, ?_, ?_, ?_⟩
  · simp [process_optout, hfo]
  · simp [process_optout, hfo, hcall]
  · rw [hc3]
  · rw [hc3]
    simp [List.contains, List.elem_eq_mem]
  · rw [hc3]
    simp [process_optout, is_first_optout]
  · rw [hc3]
    simp [process_optout, is_first_optout]

theorem optout_confirmation_once_witness :
    (process_optout (exWorld 12) exContact [] ("+15551234567".toList)
       (some "loc-1")).confirmationAttempted = true ∧
    (process_optout (exWorld 12) exContact [] ("+15551234567".toList)
       (some "loc-1")).confirmationTwilioCalled = true ∧
    (process_optout (exWorld 12) exContact [] ("+15551234567".toList)
       (some "loc-1")).contact.dnd = true ∧
    (process_optout (exWorld 12) exContact [] ("+15551234567".toList)
       (some "loc-1")).contact.tags.contains "opted_out" = true ∧
    (process_optout (exWorld 14)
       (process_optout (exWorld 12) exContact [] ("+15551234567".toList)
          (some "loc-1")).contact
       [] ("+15551234567".toList) (some "loc-1")).confirmationAttempted =
      false ∧
    (process_optout (exWorld 14)
       (process_optout (exWorld 12) exContact [] ("+15551234567".toList)
          (some "loc-1")).contact
       [] ("+15551234567".toList) (some "loc-1")).confirmationTwilioCalled =
      false :=
  optout_confirmation_once (exWorld 12) (exWorld 14) exContact [] []
    ("+15551234567".toList) ("+15551234567".toList)
    (some "loc-1") (some "loc-1") rfl rfl rfl rfl rfl (by decide)

/-- C5 counterexample: a first opt-out arriving during quiet hours
(local hour 23): the confirmation attempt is made but `send_sms`
defers it with reason `"quiet_hours"` and never calls Twilio — the
confirmation is subject to the quiet-hours check, contrary to the
claim that it bypasses the Compliance Gate. -/
theorem optout_confirmation_gated_by_quiet_hours :
    is_first_optout exContact = true ∧
    (process_optout (exWorld 23) exContact [] ("+15551234567".toList)
       (some "loc-1")).confirmationAttempted = true ∧
    (process_optout (exWorld 23) exContact [] ("+15551234567".toList)
       (some "loc-1")).confirmationTwilioCalled = false ∧
    (process_optout (exWorld 23) exContact [] ("+15551234567".toList)
       (some "loc-1")).confirmationResp =
      some { success := false, error := some "Quiet hours active",
             blocked_reason := some "quiet_hours", deferred := true } := by
  decide

/-- C8 (confirmed): the negation pass runs first and is absolute — any
message whose normalized text contains a fixed negation phrase is
classified as not-an-opt-out regardless of other content — and the
four cited examples classify as the claim states. -/
theorem optout_negation_precedence :
    (∀ msg : List Char, hasNegation msg = true → is_optout msg = false) ∧
    is_optout exDontStopTexting = false ∧
    is_optout ("stop texting me".toList) = true ∧
    is_optout ("STOP".toList) = true ∧
    is_optout ("can we stop by your office?".toList) = false := by
  refine ⟨fun msg h => ?_, by decide, by decide, by decide, by decide⟩
  simp [is_optout, h]

theorem optout_negation_precedence_witness :
    is_optout exDontStopTexting = false :=
  optout_negation_precedence.1 exDontStopTexting (by decide)

/-- C9 (confirmed): `is_quiet_hours` tests the local hour of the
resolved timezone against the configured window, wrapping midnight
when start > end (hour ≥ start OR hour < end) and using
start ≤ hour < end otherwise; at start=21, end=8 it is true at local
hours 23 and 3 and false at local hour 14. -/
theorem quiet_hours_window :
    (∀ (clk : Clock) (tz : String) (qs qe : Nat),
       is_quiet_hours clk tz qs qe = true ↔
         (if qe < qs then
            qs ≤ clk.localHour (if clk.knownTz tz then tz
                                else DEFAULT_TIMEZONE) ∨
            clk.localHour (if clk.knownTz tz then tz
                           else DEFAULT_TIMEZONE) < qe
          else
            qs ≤ clk.localHour (if clk.knownTz tz then tz
                                else DEFAULT_TIMEZONE) ∧
            clk.localHour (if clk.knownTz tz then tz
                           else DEFAULT_TIMEZONE) < qe)) ∧
    is_quiet_hours (clockAtHour 23) "America/New_York" 21 8 = true ∧
    is_quiet_hours (clockAtHour 3) "America/New_York" 21 8 = true ∧
    is_quiet_hours (clockAtHour 14) "America/New_York" 21 8 = false := by
  refine ⟨fun clk tz qs qe => ?_, by decide, by decide, by decide⟩
  rw [is_quiet_hours, quietWindow]
  by_cases hc : qe < qs
  · simp [hc, GT.gt]
  · simp [hc, GT.gt]

theorem quiet_hours_window_witness :
    is_quiet_hours (clockAtHour 23) "America/Denver" 21 8 = true :=
  (quiet_hours_window.1 (clockAtHour 23) "America/Denver" 21 8).mpr
    (by decide)
